import Mathlib

/-
Verification development for the SYMBOLASTRO repository (src/app.py).

The single source file is an HTML page whose embedded script generates the
whole analysis client-side.  The computational core consists of the functions
`generateSimulatedAnalysis`, `generateMockRecommendation`,
`generateMockProbabilities`, `generateMockTransits` and
`generateMockPriceData`, all driven by the global unseeded `Math.random()`.

Shallow embedding conventions:
* `Math.random()` is modelled by an explicit stream `s : RandStream`
  (`Nat → ℚ`) together with a cursor `k : Nat`; every function returns the
  advanced cursor, mirroring the strictly sequential consumption of the
  global generator.  `ValidStream s` states that every drawn value lies in
  `[0, 1)`, the contract of `Math.random()`.
* JavaScript numbers are modelled by `ℚ` (exact arithmetic).
* `Date` values are modelled by integer offsets: for intraday buckets the
  minute-of-day of the slot, for daily/weekly buckets a day offset from
  "now", for monthly buckets a month offset.  No claim inspects the actual
  calendar rendering, only identity/ordering/count of the buckets.
* `Number.prototype.toFixed(1)` (used for `orb` and the percentage strings
  of the recommendation) is modelled by `toFixed1`, rounding to one decimal
  place; the resulting numeric value is stored where the source stores the
  formatted string.
-/

/-- The source of pseudo-randomness: the `n`-th value returned by
`Math.random()`. -/
def RandStream : Type := Nat → ℚ

/-- Contract of `Math.random()`: every draw lies in `[0, 1)`. -/
def ValidStream (s : RandStream) : Prop := ∀ n, 0 ≤ s n ∧ s n < 1

/-- Rounding to one decimal place, modelling `x.toFixed(1)`. -/
def toFixed1 (q : ℚ) : ℚ := (⌊q * 10 + 1 / 2⌋ : ℤ) / 10

/-- The `planets` array of `generateMockTransits` (src/app.py lines 272-273). -/
def planets : List String :=
  ["Sun", "Moon", "Mercury", "Venus", "Mars",
   "Jupiter", "Saturn", "Uranus", "Neptune", "Pluto"]

/-- The `zodiacs` array of `generateMockTransits` (src/app.py lines 274-276). -/
def zodiacs : List String :=
  ["Aries", "Taurus", "Gemini", "Cancer", "Leo",
   "Virgo", "Libra", "Scorpio", "Sagittarius",
   "Capricorn", "Aquarius", "Pisces"]

/-- The `aspects` array of `generateMockTransits` (src/app.py line 277). -/
def aspects : List String :=
  ["conjunction", "sextile", "square", "trine", "opposition"]

/-- One mock transit record as pushed by `generateMockTransits`
(src/app.py lines 283-289).  `orb` holds the numeric value of the
`(Math.random()*5).toFixed(1)` string. -/
structure Transit where
  planet : String
  zodiac_sign : String
  aspect : String
  orb : ℚ
  retrograde : Bool
  deriving DecidableEq

/-- One entry of the `probabilities` list built by
`generateMockProbabilities` (src/app.py lines 248-253 and 259-264). -/
structure ProbEntry where
  date : ℤ
  bullish_prob : ℚ
  bearish_prob : ℚ
  transits : List Transit
  deriving DecidableEq

/-- One entry of the `price_data` list built by `generateMockPriceData`
(src/app.py lines 313-318 and 332-337). -/
structure PricePoint where
  timestamp : ℤ
  price : ℚ
  bullish_prob : ℚ
  bearish_prob : ℚ
  deriving DecidableEq

/-- The object returned by `generateMockRecommendation`
(src/app.py lines 193-226).  The three percentage fields hold the numeric
values of the `…toFixed(1) + '%'` strings. -/
structure Recommendation where
  recommendation : String
  confidence : ℚ
  bullish_prob : ℚ
  bearish_prob : ℚ
  deriving DecidableEq

/-- The `mockAnalysis` object literal of `generateSimulatedAnalysis`
(src/app.py lines 178-184), fields in source order. -/
structure MockAnalysis where
  symbol : String
  timeframe : String
  current_recommendation : Recommendation
  probabilities : List ProbEntry
  price_data : List PricePoint
  deriving DecidableEq

/-- Field names of the `mockAnalysis` object literal
(src/app.py lines 178-184), in source order. -/
def mockAnalysisFields : List String :=
  ["symbol", "timeframe", "current_recommendation", "probabilities", "price_data"]

/-- The intraday sub-buckets `for (h = 9; h < 16; h++) for (m = 0; m < 60; m += 15)`
(src/app.py lines 242-243 and 309-310), as minute-of-day values: 28 slots
from 9:00 to 15:45. -/
def sessionSlots : List ℤ :=
  (List.range 7).flatMap fun h => (List.range 4).map fun q => ((9 + h) * 60 + 15 * q : ℤ)

/-- Body of the transit loop of `generateMockTransits`
(src/app.py lines 282-290): `n` remaining iterations, cursor `k`; each
iteration draws planet, zodiac sign, aspect, orb and retrograde flag. -/
def generateMockTransitsLoop (s : RandStream) : Nat → Nat → List Transit × Nat
  | 0, k => ([], k)
  | n + 1, k =>
    let t : Transit :=
      { planet := planets.getD (⌊s k * 10⌋).toNat ""
        zodiac_sign := zodiacs.getD (⌊s (k + 1) * 12⌋).toNat ""
        aspect := aspects.getD (⌊s (k + 2) * 5⌋).toNat ""
        orb := toFixed1 (s (k + 3) * 5)
        retrograde := 17 / 20 < s (k + 4) }
    let rest := generateMockTransitsLoop s n (k + 5)
    (t :: rest.1, rest.2)

/-- `generateMockTransits` (src/app.py lines 271-293): draws
`count = Math.floor(Math.random() * 3) + 2` and then `count` transits. -/
def generateMockTransits (s : RandStream) (k : Nat) : List Transit × Nat :=
  generateMockTransitsLoop s ((⌊s k * 3⌋).toNat + 2) (k + 1)

/-- The non-intraday loop of `generateMockProbabilities`
(src/app.py lines 256-265): with `m + 1` iterations remaining the date is
`now − m` days; each iteration draws one bullish probability and one set of
transits. -/
def probLoop (s : RandStream) : Nat → Nat → List ProbEntry × Nat
  | 0, k => ([], k)
  | m + 1, k =>
    let bullish := 2 / 5 + s k * (3 / 10)
    let trs := generateMockTransits s (k + 1)
    let rest := probLoop s m trs.2
    ({ date := -(m : ℤ), bullish_prob := bullish, bearish_prob := 1 - bullish,
       transits := trs.1 } :: rest.1, rest.2)

/-- The intraday branch of `generateMockProbabilities`
(src/app.py lines 240-255): one entry per session slot, same draws as the
non-intraday branch. -/
def probIntradayLoop (s : RandStream) : List ℤ → Nat → List ProbEntry × Nat
  | [], k => ([], k)
  | t :: ts, k =>
    let bullish := 2 / 5 + s k * (3 / 10)
    let trs := generateMockTransits s (k + 1)
    let rest := probIntradayLoop s ts trs.2
    ({ date := t, bullish_prob := bullish, bearish_prob := 1 - bullish,
       transits := trs.1 } :: rest.1, rest.2)

/-- `generateMockProbabilities` (src/app.py lines 230-269).  The source
computes `count = intraday ? 1 : daily ? 7 : weekly ? 4 : 12`; for intraday
the single outer iteration expands into the 28 session slots, otherwise the
outer loop runs `count` times. -/
def generateMockProbabilities (s : RandStream) (tf : String) (k : Nat) :
    List ProbEntry × Nat :=
  if tf = "intraday" then
    probIntradayLoop s sessionSlots k
  else
    probLoop s (if tf = "daily" then 7 else if tf = "weekly" then 4 else 12) k

/-- `generateMockRecommendation` (src/app.py lines 190-228): one draw,
classified by the cascade `rand > 0.6 / > 0.4 / > 0.3 / > 0.15`. -/
def generateMockRecommendation (s : RandStream) (k : Nat) : Recommendation × Nat :=
  let rand := s k
  let r : Recommendation :=
    if 3 / 5 < rand then
      { recommendation := "Strong Buy", confidence := toFixed1 (rand * 30 + 70),
        bullish_prob := toFixed1 (rand * 20 + 60),
        bearish_prob := toFixed1 (100 - (rand * 20 + 60)) }
    else if 2 / 5 < rand then
      { recommendation := "Buy", confidence := toFixed1 (rand * 30 + 50),
        bullish_prob := toFixed1 (rand * 15 + 55),
        bearish_prob := toFixed1 (100 - (rand * 15 + 55)) }
    else if 3 / 10 < rand then
      { recommendation := "Neutral", confidence := toFixed1 (rand * 20 + 30),
        bullish_prob := toFixed1 (rand * 10 + 45),
        bearish_prob := toFixed1 (100 - (rand * 10 + 45)) }
    else if 3 / 20 < rand then
      { recommendation := "Sell", confidence := toFixed1 (rand * 30 + 50),
        bullish_prob := toFixed1 (rand * 15 + 30),
        bearish_prob := toFixed1 (100 - (rand * 15 + 30)) }
    else
      { recommendation := "Strong Sell", confidence := toFixed1 (rand * 30 + 70),
        bullish_prob := toFixed1 (rand * 10 + 20),
        bearish_prob := toFixed1 (100 - (rand * 10 + 20)) }
  (r, k + 1)

/-- The intraday inner loop of `generateMockPriceData`
(src/app.py lines 309-320): per slot, one price step with volatility 0.005
and two fresh probability draws; threads the running price. -/
def priceInner (s : RandStream) : List ℤ → ℚ → Nat → List PricePoint × ℚ × Nat
  | [], price, k => ([], price, k)
  | t :: ts, price, k =>
    let price1 := price * (1 + (s k - 1 / 2) * (1 / 200))
    let pt : PricePoint :=
      { timestamp := t, price := price1
        bullish_prob := 1 / 2 + (s (k + 1) - 1 / 2) * (1 / 5)
        bearish_prob := 1 / 2 + (s (k + 2) - 1 / 2) * (1 / 5) }
    let rest := priceInner s ts price1 (k + 3)
    (pt :: rest.1, rest.2)

/-- The outer loop of `generateMockPriceData` (src/app.py lines 304-339):
with `m + 1` iterations remaining the non-intraday timestamp offset is `−m`
units (days for daily, 7-day blocks for weekly, months otherwise); the
intraday branch re-runs the whole 28-slot session on every outer iteration,
exactly as the nested source loops do. -/
def priceOuter (s : RandStream) (tf : String) : Nat → ℚ → Nat → List PricePoint × ℚ × Nat
  | 0, price, k => ([], price, k)
  | m + 1, price, k =>
    if tf = "intraday" then
      let inner := priceInner s sessionSlots price k
      let rest := priceOuter s tf m inner.2.1 inner.2.2
      (inner.1 ++ rest.1, rest.2)
    else
      let price1 := price * (1 + (s k - 1 / 2) * (1 / 20))
      let ts : ℤ := if tf = "weekly" then -(7 * (m : ℤ)) else -(m : ℤ)
      let pt : PricePoint :=
        { timestamp := ts, price := price1
          bullish_prob := 1 / 2 + (s (k + 1) - 1 / 2) * (1 / 5)
          bearish_prob := 1 / 2 + (s (k + 2) - 1 / 2) * (1 / 5) }
      let rest := priceOuter s tf m price1 (k + 3)
      (pt :: rest.1, rest.2)

/-- `generateMockPriceData` (src/app.py lines 295-342): draws the starting
price `100 + Math.random() * 50`, then runs the outer loop
`count = intraday ? 28 : daily ? 7 : weekly ? 4 : 12` times. -/
def generateMockPriceData (s : RandStream) (tf : String) (k : Nat) :
    List PricePoint × Nat :=
  let count := if tf = "intraday" then 28 else
               if tf = "daily" then 7 else
               if tf = "weekly" then 4 else 12
  let res := priceOuter s tf count (100 + s k * 50) (k + 1)
  (res.1, res.2.2)

/-- `generateSimulatedAnalysis` (src/app.py lines 171-188): the resolved
`mockAnalysis` value.  The object literal evaluates the recommendation, the
probabilities and the price data in that order, consuming the shared random
stream sequentially; the symbol and timeframe are only echoed. -/
def generateSimulatedAnalysis (s : RandStream) (symbol timeframe : String)
    (k : Nat) : MockAnalysis × Nat :=
  let rcm := generateMockRecommendation s k
  let probs := generateMockProbabilities s timeframe rcm.2
  let prices := generateMockPriceData s timeframe probs.2
  ({ symbol := symbol, timeframe := timeframe, current_recommendation := rcm.1,
     probabilities := probs.1, price_data := prices.1 }, prices.2)

/-- Default probability entry, used as the `getD` fallback in concrete
evaluations. -/
def dProbEntry : ProbEntry :=
  { date := 0, bullish_prob := 0, bearish_prob := 0, transits := [] }

/-- Default price point, used as the `getD` fallback in concrete
evaluations. -/
def dPricePoint : PricePoint :=
  { timestamp := 0, price := 0, bullish_prob := 0, bearish_prob := 0 }

/-- Concrete stream: every draw is 1/2. -/
def streamHalf : RandStream := fun _ => (1 : ℚ) / 2

/-- Concrete stream: every draw is 0. -/
def streamZero : RandStream := fun _ => 0

/-- Concrete stream: first draw 0.35 (a `Neutral` recommendation draw), all
later draws 0.9 (bullish periods). -/
def streamNeutralHigh : RandStream := fun n => if n = 0 then 7 / 20 else 9 / 10

/-- Concrete stream: first draw 0.7 (a `Strong Buy` recommendation draw),
all later draws 0.2 (a `Sell` recommendation draw). -/
def streamBuySell : RandStream := fun n => if n = 0 then 7 / 10 else 1 / 5

/-- `streamHalf` satisfies the `Math.random()` contract. -/
theorem streamHalf_valid : ValidStream streamHalf := fun _ => by
  constructor <;> norm_num [streamHalf]

/-- `streamZero` satisfies the `Math.random()` contract. -/
theorem streamZero_valid : ValidStream streamZero := fun _ => by
  constructor <;> norm_num [streamZero]

/-- The first element delivered by `getD 0` of a nonempty list is a member. -/
theorem getD_zero_mem {α : Type} (l : List α) (d : α) (h : 0 < l.length) :
    l.getD 0 d ∈ l := by
  rw [List.getD_eq_getElem l d h]
  exact List.getElem_mem h

/-- The transit loop emits exactly as many transits as it has iterations. -/
theorem generateMockTransitsLoop_length (s : RandStream) :
    ∀ n k, ((generateMockTransitsLoop s n k).1).length = n := by
  intro n
  induction n with
  | zero => intro k; simp [generateMockTransitsLoop]
  | succ n ih => intro k; simp [generateMockTransitsLoop, ih]

/-- `generateMockTransits` emits `Math.floor(Math.random()*3) + 2` transits. -/
theorem generateMockTransits_length (s : RandStream) (k : Nat) :
    ((generateMockTransits s k).1).length = (⌊s k * 3⌋).toNat + 2 := by
  simp [generateMockTransits, generateMockTransitsLoop_length]

/-- Shape of every probability entry: its bullish probability is
`0.4 + r * 0.3` for some draw `r`, its bearish probability is the
complement, and its transit count comes from the following draw. -/
def GoodEntry (s : RandStream) (e : ProbEntry) : Prop :=
  ∃ j, e.bullish_prob = 2 / 5 + s j * (3 / 10) ∧
    e.bearish_prob = 1 - e.bullish_prob ∧
    e.transits.length = (⌊s (j + 1) * 3⌋).toNat + 2

/-- Every entry of the non-intraday probability loop has the common shape. -/
theorem probLoop_good (s : RandStream) :
    ∀ m k, ∀ e ∈ (probLoop s m k).1, GoodEntry s e := by
  intro m
  induction m with
  | zero => intro k e he; simp [probLoop] at he
  | succ m ih =>
    intro k e he
    simp only [probLoop, List.mem_cons] at he
    rcases he with rfl | he
    · exact ⟨k, rfl, rfl, generateMockTransits_length s (k + 1)⟩
    · exact ih _ e he

/-- Every entry of the intraday probability loop has the common shape. -/
theorem probIntradayLoop_good (s : RandStream) :
    ∀ slots k, ∀ e ∈ (probIntradayLoop s slots k).1, GoodEntry s e := by
  intro slots
  induction slots with
  | nil => intro k e he; simp [probIntradayLoop] at he
  | cons t ts ih =>
    intro k e he
    simp only [probIntradayLoop, List.mem_cons] at he
    rcases he with rfl | he
    · exact ⟨k, rfl, rfl, generateMockTransits_length s (k + 1)⟩
    · exact ih _ e he

/-- Every entry produced by `generateMockProbabilities`, for any timeframe,
has the common shape. -/
theorem generateMockProbabilities_good (s : RandStream) (tf : String) (k : Nat) :
    ∀ e ∈ (generateMockProbabilities s tf k).1, GoodEntry s e := by
  intro e he
  by_cases h : tf = "intraday"
  · simp only [generateMockProbabilities, h, if_pos] at he
    exact probIntradayLoop_good s _ _ e (by simpa using he)
  · simp only [generateMockProbabilities, h, if_neg, if_false] at he
    exact probLoop_good s _ _ e (by simpa [h] using he)

/-- Numeric consequences of the entry shape under the `Math.random()`
contract: bounds on both probabilities, exact complementarity, and the
2-to-4 transit count. -/
theorem goodEntry_bounds (s : RandStream) (hs : ValidStream s) (e : ProbEntry)
    (hg : GoodEntry s e) :
    2 / 5 ≤ e.bullish_prob ∧ e.bullish_prob < 7 / 10 ∧
    e.bearish_prob = 1 - e.bullish_prob ∧
    2 ≤ e.transits.length ∧ e.transits.length ≤ 4 := by
  obtain ⟨j, h1, h2, h3⟩ := hg
  obtain ⟨hj0, hj1⟩ := hs j
  obtain ⟨hk0, hk1⟩ := hs (j + 1)
  have hf0 : (0 : ℤ) ≤ ⌊s (j + 1) * 3⌋ := Int.floor_nonneg.mpr (by positivity)
  have hf1 : ⌊s (j + 1) * 3⌋ < 3 := by
    rw [Int.floor_lt]
    push_cast
    nlinarith
  refine ⟨by rw [h1]; nlinarith, by rw [h1]; nlinarith, h2, ?_, ?_⟩ <;> omega

/-- The non-intraday probability loop emits one entry per iteration. -/
theorem probLoop_length (s : RandStream) :
    ∀ m k, ((probLoop s m k).1).length = m := by
  intro m
  induction m with
  | zero => intro k; simp [probLoop]
  | succ m ih => intro k; simp [probLoop, ih]

/-- The intraday probability loop emits one entry per session slot. -/
theorem probIntradayLoop_length (s : RandStream) :
    ∀ slots k, ((probIntradayLoop s slots k).1).length = slots.length := by
  intro slots
  induction slots with
  | nil => intro k; simp [probIntradayLoop]
  | cons t ts ih => intro k; simp [probIntradayLoop, ih]

/-- There are 28 intraday session slots (7 hours times 4 quarter-hours). -/
theorem sessionSlots_length : sessionSlots.length = 28 := by decide

/-- A single price step `price * (1 + (r − 0.5) * v)` keeps the price
positive whenever the draw is nonnegative and the volatility is at most
0.05. -/
theorem stepFactorPos (r v : ℚ) (hr : 0 ≤ r) (hv0 : 0 < v) (hv : v ≤ 1 / 20) :
    0 < 1 + (r - 1 / 2) * v := by nlinarith

/-- A fresh price-point probability draw `0.5 + (r − 0.5) * 0.2` lies in
`[0.4, 0.6)` when `r ∈ [0, 1)`. -/
theorem pointProbBounds (r : ℚ) (h0 : 0 ≤ r) (h1 : r < 1) :
    2 / 5 ≤ 1 / 2 + (r - 1 / 2) * (1 / 5) ∧ 1 / 2 + (r - 1 / 2) * (1 / 5) < 3 / 5 := by
  constructor <;> nlinarith

/-- Range of the two fresh probability draws attached to a price point. -/
def GoodPoint (p : PricePoint) : Prop :=
  2 / 5 ≤ p.bullish_prob ∧ p.bullish_prob < 3 / 5 ∧
  2 / 5 ≤ p.bearish_prob ∧ p.bearish_prob < 3 / 5

/-- Invariant of the intraday inner price loop: starting from a positive
price, every emitted point has a positive price and in-range probability
draws, and the final running price is positive. -/
theorem priceInner_good (s : RandStream) (hs : ValidStream s) :
    ∀ slots price k, 0 < price →
      (∀ p ∈ (priceInner s slots price k).1, 0 < p.price ∧ GoodPoint p) ∧
      0 < (priceInner s slots price k).2.1 := by
  intro slots
  induction slots with
  | nil => intro price k h; exact ⟨by simp [priceInner], by simpa [priceInner] using h⟩
  | cons t ts ih =>
    intro price k h
    have hfac : 0 < 1 + (s k - 1 / 2) * (1 / 200) :=
      stepFactorPos _ _ (hs k).1 (by norm_num) (by norm_num)
    have hp1 : 0 < price * (1 + (s k - 1 / 2) * (1 / 200)) := mul_pos h hfac
    constructor
    · intro p hp
      simp only [priceInner, List.mem_cons] at hp
      rcases hp with rfl | hp
      · exact ⟨hp1,
          (pointProbBounds _ (hs (k + 1)).1 (hs (k + 1)).2).1,
          (pointProbBounds _ (hs (k + 1)).1 (hs (k + 1)).2).2,
          (pointProbBounds _ (hs (k + 2)).1 (hs (k + 2)).2).1,
          (pointProbBounds _ (hs (k + 2)).1 (hs (k + 2)).2).2⟩
      · exact (ih _ _ hp1).1 p hp
    · simpa only [priceInner] using (ih _ _ hp1).2

/-- Invariant of the outer price loop, for every timeframe: positivity of
all emitted prices and of the running price, and in-range probability
draws. -/
theorem priceOuter_good (s : RandStream) (hs : ValidStream s) (tf : String) :
    ∀ m price k, 0 < price →
      (∀ p ∈ (priceOuter s tf m price k).1, 0 < p.price ∧ GoodPoint p) ∧
      0 < (priceOuter s tf m price k).2.1 := by
  intro m
  induction m with
  | zero => intro price k h; exact ⟨by simp [priceOuter], by simpa [priceOuter] using h⟩
  | succ m ih =>
    intro price k h
    by_cases htf : tf = "intraday"
    · subst htf
      have hinner := priceInner_good s hs sessionSlots price k h
      have hrest := ih _ (priceInner s sessionSlots price k).2.2 hinner.2
      constructor
      · intro p hp
        simp only [priceOuter, if_pos, List.mem_append, reduceIte] at hp
        rcases hp with hp | hp
        · exact hinner.1 p hp
        · exact hrest.1 p hp
      · simpa only [priceOuter, if_pos, reduceIte] using hrest.2
    · have hfac : 0 < 1 + (s k - 1 / 2) * (1 / 20) :=
        stepFactorPos _ _ (hs k).1 (by norm_num) (by norm_num)
      have hp1 : 0 < price * (1 + (s k - 1 / 2) * (1 / 20)) := mul_pos h hfac
      have hrest := ih _ (k + 3) hp1
      constructor
      · intro p hp
        simp only [priceOuter, htf, if_neg, if_false, List.mem_cons] at hp
        rcases hp with rfl | hp
        · exact ⟨hp1,
            (pointProbBounds _ (hs (k + 1)).1 (hs (k + 1)).2).1,
            (pointProbBounds _ (hs (k + 1)).1 (hs (k + 1)).2).2,
            (pointProbBounds _ (hs (k + 2)).1 (hs (k + 2)).2).1,
            (pointProbBounds _ (hs (k + 2)).1 (hs (k + 2)).2).2⟩
        · exact hrest.1 p hp
      · simpa only [priceOuter, htf, if_neg, if_false] using hrest.2

/-- Every price point emitted by `generateMockPriceData` has a positive
price and in-range probability draws, for every timeframe. -/
theorem generateMockPriceData_good (s : RandStream) (hs : ValidStream s)
    (tf : String) (k : Nat) :
    ∀ p ∈ (generateMockPriceData s tf k).1, 0 < p.price ∧ GoodPoint p := by
  intro p hp
  have hstart : 0 < 100 + s k * 50 := by
    have := (hs k).1
    nlinarith
  exact (priceOuter_good s hs tf _ _ (k + 1) hstart).1 p (by
    simpa [generateMockPriceData] using hp)

/-- The intraday inner price loop emits one point per slot. -/
theorem priceInner_length (s : RandStream) :
    ∀ slots price k, ((priceInner s slots price k).1).length = slots.length := by
  intro slots
  induction slots with
  | nil => intro price k; simp [priceInner]
  | cons t ts ih => intro price k; simp [priceInner, ih]

/-- For a non-intraday timeframe the outer price loop emits one point per
iteration. -/
theorem priceOuter_length_other (s : RandStream) (tf : String)
    (htf : tf ≠ "intraday") :
    ∀ m price k, ((priceOuter s tf m price k).1).length = m := by
  intro m
  induction m with
  | zero => intro price k; simp [priceOuter]
  | succ m ih => intro price k; simp [priceOuter, htf, ih]

/-- For the intraday timeframe the outer price loop re-emits the whole
28-slot session on every iteration. -/
theorem priceOuter_length_intraday (s : RandStream) :
    ∀ m price k, ((priceOuter s "intraday" m price k).1).length = m * 28 := by
  intro m
  induction m with
  | zero => intro price k; simp [priceOuter]
  | succ m ih =>
    intro price k
    simp [priceOuter, ih, priceInner_length, sessionSlots_length]
    ring

/-- C1: every entry of the `probabilities` list of an analysis result, for
every symbol and timeframe, satisfies `bullish_prob + bearish_prob = 1`
exactly (hence within the 1e-9 tolerance), with both probabilities in
`[0, 1]`. -/
theorem C1_probabilities_sum_to_one (s : RandStream) (hs : ValidStream s)
    (sym tf : String) (k : Nat) :
    ∀ e ∈ (generateSimulatedAnalysis s sym tf k).1.probabilities,
      e.bullish_prob + e.bearish_prob = 1 ∧
      |e.bullish_prob + e.bearish_prob - 1| ≤ 1 / 1000000000 ∧
      0 ≤ e.bullish_prob ∧ e.bullish_prob ≤ 1 ∧
      0 ≤ e.bearish_prob ∧ e.bearish_prob ≤ 1 := by
  intro e he
  have hg : GoodEntry s e :=
    generateMockProbabilities_good s tf _ e (by simpa [generateSimulatedAnalysis] using he)
  obtain ⟨h1, h2, h3, -, -⟩ := goodEntry_bounds s hs e hg
  have hsum : e.bullish_prob + e.bearish_prob = 1 := by rw [h3]; ring
  refine ⟨hsum, by rw [hsum]; norm_num, by linarith, by linarith, by rw [h3]; linarith,
    by rw [h3]; linarith⟩

/-- C1 witness: the invariant instantiated at the first daily entry of a
concrete run. -/
theorem C1_probabilities_sum_to_one_witness :
    ((generateSimulatedAnalysis streamHalf "AAPL" "daily" 0).1.probabilities.getD 0
      dProbEntry).bullish_prob +
    ((generateSimulatedAnalysis streamHalf "AAPL" "daily" 0).1.probabilities.getD 0
      dProbEntry).bearish_prob = 1 := by
  have hmem :
      (generateSimulatedAnalysis streamHalf "AAPL" "daily" 0).1.probabilities.getD 0 dProbEntry ∈
      (generateSimulatedAnalysis streamHalf "AAPL" "daily" 0).1.probabilities := by
    apply getD_zero_mem
    simp +decide [generateSimulatedAnalysis, generateMockProbabilities, probLoop_length]
  exact (C1_probabilities_sum_to_one streamHalf streamHalf_valid "AAPL" "daily" 0 _ hmem).1

/-- C10: every per-period bullish probability lies in `[0.4, 0.7]`, hence
every bearish probability lies in `[0.3, 0.6]` and `bearish_prob > 0.6`
never holds. -/
theorem C10_bullish_range (s : RandStream) (hs : ValidStream s)
    (tf : String) (k : Nat) :
    ∀ e ∈ (generateMockProbabilities s tf k).1,
      2 / 5 ≤ e.bullish_prob ∧ e.bullish_prob ≤ 7 / 10 ∧
      3 / 10 ≤ e.bearish_prob ∧ e.bearish_prob ≤ 3 / 5 ∧
      ¬ (3 / 5 < e.bearish_prob) := by
  intro e he
  obtain ⟨h1, h2, h3, -, -⟩ :=
    goodEntry_bounds s hs e (generateMockProbabilities_good s tf k e he)
  refine ⟨h1, le_of_lt h2, by rw [h3]; linarith, by rw [h3]; linarith, ?_⟩
  rw [h3]
  intro hcon
  linarith

/-- C10 witness: the range instantiated at the first daily entry of a
concrete run. -/
theorem C10_bullish_range_witness :
    2 / 5 ≤ ((generateMockProbabilities streamHalf "daily" 0).1.getD 0 dProbEntry).bullish_prob ∧
    ¬ (3 / 5 < ((generateMockProbabilities streamHalf "daily" 0).1.getD 0 dProbEntry).bearish_prob) := by
  have hmem :
      (generateMockProbabilities streamHalf "daily" 0).1.getD 0 dProbEntry ∈
      (generateMockProbabilities streamHalf "daily" 0).1 := by
    apply getD_zero_mem
    simp +decide [generateMockProbabilities, probLoop_length]
  have h := C10_bullish_range streamHalf streamHalf_valid "daily" 0 _ hmem
  exact ⟨h.1, h.2.2.2.2⟩

/-- C6: every price in any generated price series, for any timeframe, is
strictly positive: the starting price is positive and every per-step
multiplicative factor stays strictly positive. -/
theorem C6_price_positive (s : RandStream) (hs : ValidStream s)
    (tf : String) (k : Nat) :
    ∀ p ∈ (generateMockPriceData s tf k).1, 0 < p.price := by
  intro p hp
  exact (generateMockPriceData_good s hs tf k p hp).1

/-- C6 witness: positivity instantiated at the first daily price point of a
concrete run. -/
theorem C6_price_positive_witness :
    0 < ((generateMockPriceData streamHalf "daily" 0).1.getD 0 dPricePoint).price := by
  have hmem :
      (generateMockPriceData streamHalf "daily" 0).1.getD 0 dPricePoint ∈
      (generateMockPriceData streamHalf "daily" 0).1 := by
    apply getD_zero_mem
    simp +decide [generateMockPriceData, priceOuter_length_other]
  exact C6_price_positive streamHalf streamHalf_valid "daily" 0 _ hmem

/-- C2 counterexample: concrete run in which the last period has
`bullish_prob = 0.67 > 0.6`, yet the recommendation is `Neutral`, not
`Strong Buy`: the recommendation is drawn before and independently of the
probability series. -/
theorem C2_counterexample :
    (generateSimulatedAnalysis streamNeutralHigh "AAPL" "daily" 0).1.probabilities.length = 7 ∧
    3 / 5 <
      ((generateSimulatedAnalysis streamNeutralHigh "AAPL" "daily" 0).1.probabilities.getD 6
        dProbEntry).bullish_prob ∧
    (generateSimulatedAnalysis streamNeutralHigh "AAPL" "daily"
      0).1.current_recommendation.recommendation = "Neutral" ∧
    (generateSimulatedAnalysis streamNeutralHigh "AAPL" "daily"
      0).1.current_recommendation.recommendation ≠ "Strong Buy" := by
  refine ⟨?_, ?_, ?_, ?_⟩ <;>
    norm_num +decide [generateSimulatedAnalysis, generateMockRecommendation,
      generateMockProbabilities, probLoop, generateMockTransits,
      generateMockTransitsLoop, streamNeutralHigh, toFixed1, dProbEntry, Int.toNat]

/-- C2 as amended: the recommendation is produced by
`generateMockRecommendation` from the single random draw at the current
cursor, independently of the probability series; the five label bands on
that draw (`> 0.6`, `> 0.4`, `> 0.3`, `> 0.15`, otherwise) are mutually
exclusive and exhaustive. -/
theorem C2_amended_recommendation_bands (s : RandStream) (sym tf : String) (k : Nat) :
    (generateSimulatedAnalysis s sym tf k).1.current_recommendation =
      (generateMockRecommendation s k).1 ∧
    ((generateMockRecommendation s k).1.recommendation = "Strong Buy" ∨
     (generateMockRecommendation s k).1.recommendation = "Buy" ∨
     (generateMockRecommendation s k).1.recommendation = "Neutral" ∨
     (generateMockRecommendation s k).1.recommendation = "Sell" ∨
     (generateMockRecommendation s k).1.recommendation = "Strong Sell") ∧
    ((generateMockRecommendation s k).1.recommendation = "Strong Buy" ↔ 3 / 5 < s k) ∧
    ((generateMockRecommendation s k).1.recommendation = "Buy" ↔
      2 / 5 < s k ∧ s k ≤ 3 / 5) ∧
    ((generateMockRecommendation s k).1.recommendation = "Neutral" ↔
      3 / 10 < s k ∧ s k ≤ 2 / 5) ∧
    ((generateMockRecommendation s k).1.recommendation = "Sell" ↔
      3 / 20 < s k ∧ s k ≤ 3 / 10) ∧
    ((generateMockRecommendation s k).1.recommendation = "Strong Sell" ↔ s k ≤ 3 / 20) := by
  refine ⟨rfl, ?_⟩
  simp only [generateMockRecommendation]
  split_ifs with h1 h2 h3 h4 <;>
    simp +decide <;>
    and_intros <;>
    first
      | linarith
      | (intro h; linarith)

/-- C3 counterexample: the weekly timeframe produces 4 periods, not 30, and
the monthly timeframe produces 12 periods, not 90. -/
theorem C3_counterexample :
    (generateMockProbabilities streamHalf "weekly" 0).1.length = 4 ∧ (4 : Nat) ≠ 30 ∧
    (generateMockProbabilities streamHalf "monthly" 0).1.length = 12 ∧ (12 : Nat) ≠ 90 := by
  refine ⟨?_, by decide, ?_, by decide⟩ <;>
    simp +decide [generateMockProbabilities, probLoop_length]

/-- C3 as amended: the period-count mapping actually implemented is
`daily → 7`, `weekly → 4`, `monthly → 12`, and `intraday → 28` quarter-hour
buckets of one day; the price series uses the same mapping except that the
intraday branch re-expands each of its 28 outer iterations into a full
28-slot session, yielding 784 points. -/
theorem C3_amended_period_counts (s : RandStream) (k : Nat) :
    (generateMockProbabilities s "daily" k).1.length = 7 ∧
    (generateMockProbabilities s "weekly" k).1.length = 4 ∧
    (generateMockProbabilities s "monthly" k).1.length = 12 ∧
    (generateMockProbabilities s "intraday" k).1.length = 28 ∧
    (generateMockPriceData s "daily" k).1.length = 7 ∧
    (generateMockPriceData s "weekly" k).1.length = 4 ∧
    (generateMockPriceData s "monthly" k).1.length = 12 ∧
    (generateMockPriceData s "intraday" k).1.length = 784 := by
  refine ⟨?_, ?_, ?_, ?_, ?_, ?_, ?_, ?_⟩ <;>
    simp +decide [generateMockProbabilities, generateMockPriceData, probLoop_length,
      probIntradayLoop_length, sessionSlots_length, priceOuter_length_intraday,
      priceOuter_length_other]

/-- C4 counterexample: both supposedly failing calls succeed in a concrete
run — the empty symbol is accepted and echoed with a full 7-period result,
and the unrecognized timeframe `yearly` falls into the final `else` branch
and yields a 12-period result.  No validation or error path exists in the
source. -/
theorem C4_counterexample :
    (generateSimulatedAnalysis streamHalf "" "daily" 0).1.symbol = "" ∧
    (generateSimulatedAnalysis streamHalf "" "daily" 0).1.probabilities.length = 7 ∧
    (generateSimulatedAnalysis streamHalf "AAPL" "yearly" 0).1.timeframe = "yearly" ∧
    (generateSimulatedAnalysis streamHalf "AAPL" "yearly" 0).1.probabilities.length = 12 := by
  refine ⟨rfl, ?_, rfl, ?_⟩ <;>
    simp +decide [generateSimulatedAnalysis, generateMockProbabilities, probLoop_length]

/-- C4 as amended: the analysis computation is total — it raises no error
for any input; an empty symbol is simply echoed with a complete daily
result, and every timeframe outside intraday/daily/weekly (such as
`yearly`) is handled by the final `else` branch exactly like `monthly`,
with 12 periods and 12 price points. -/
theorem C4_amended_total (s : RandStream) (k : Nat) :
    (generateSimulatedAnalysis s "" "daily" k).1.symbol = "" ∧
    (generateSimulatedAnalysis s "" "daily" k).1.probabilities.length = 7 ∧
    (generateSimulatedAnalysis s "" "daily" k).1.price_data.length = 7 ∧
    (generateSimulatedAnalysis s "AAPL" "yearly" k).1.timeframe = "yearly" ∧
    (generateSimulatedAnalysis s "AAPL" "yearly" k).1.probabilities.length = 12 ∧
    (generateSimulatedAnalysis s "AAPL" "yearly" k).1.price_data.length = 12 ∧
    (generateSimulatedAnalysis s "AAPL" "yearly" k).1.probabilities.length =
      (generateSimulatedAnalysis s "AAPL" "monthly" k).1.probabilities.length := by
  refine ⟨rfl, ?_, ?_, rfl, ?_, ?_, ?_⟩ <;>
    simp +decide [generateSimulatedAnalysis, generateMockProbabilities,
      generateMockPriceData, probLoop_length, priceOuter_length_other]

/-- Cursor advance of the transit loop: five draws per transit. -/
theorem generateMockTransitsLoop_cursor (s : RandStream) :
    ∀ n k, (generateMockTransitsLoop s n k).2 = k + 5 * n := by
  intro n
  induction n with
  | zero => intro k; simp [generateMockTransitsLoop]
  | succ n ih => intro k; simp [generateMockTransitsLoop, ih]; ring

/-- Under `streamBuySell` every draw past the first is 0.2, so each
probability period consumes exactly 12 draws. -/
theorem probLoop_cursor_buySell :
    ∀ m k, (probLoop streamBuySell m k).2 = k + 12 * m := by
  intro m
  induction m with
  | zero => intro k; simp [probLoop]
  | succ m ih =>
    intro k
    have ht : (generateMockTransits streamBuySell (k + 1)).2 = k + 12 := by
      simp [generateMockTransits, generateMockTransitsLoop_cursor, streamBuySell]
      norm_num [Int.toNat]
    simp [probLoop, ht, ih]
    ring

/-- Cursor advance of the non-intraday price loop: three draws per step. -/
theorem priceOuter_cursor_other (s : RandStream) (tf : String)
    (htf : tf ≠ "intraday") :
    ∀ m price k, (priceOuter s tf m price k).2.2 = k + 3 * m := by
  intro m
  induction m with
  | zero => intro price k; simp [priceOuter]
  | succ m ih => intro price k; simp [priceOuter, htf, ih]; ring

/-- C5 counterexample: two successive calls with the same symbol and
timeframe, the second starting at the cursor where the first finished (as
the shared global generator does), produce different outputs: the first
recommendation is `Strong Buy`, the second is `Sell`. -/
theorem C5_counterexample :
    (generateSimulatedAnalysis streamBuySell "AAPL" "daily"
      0).1.current_recommendation.recommendation = "Strong Buy" ∧
    (generateSimulatedAnalysis streamBuySell "AAPL" "daily"
      ((generateSimulatedAnalysis streamBuySell "AAPL" "daily"
        0).2)).1.current_recommendation.recommendation = "Sell" ∧
    (generateSimulatedAnalysis streamBuySell "AAPL" "daily" 0).1 ≠
      (generateSimulatedAnalysis streamBuySell "AAPL" "daily"
        ((generateSimulatedAnalysis streamBuySell "AAPL" "daily" 0).2)).1 := by
  have h1 : (generateSimulatedAnalysis streamBuySell "AAPL" "daily"
      0).1.current_recommendation.recommendation = "Strong Buy" := by
    norm_num +decide [generateSimulatedAnalysis, generateMockRecommendation, streamBuySell,
      toFixed1]
  have hK : (generateSimulatedAnalysis streamBuySell "AAPL" "daily" 0).2 = 107 := by
    simp +decide [generateSimulatedAnalysis, generateMockRecommendation,
      generateMockProbabilities, generateMockPriceData, probLoop_cursor_buySell,
      priceOuter_cursor_other]
  have h2 : (generateSimulatedAnalysis streamBuySell "AAPL" "daily"
      ((generateSimulatedAnalysis streamBuySell "AAPL" "daily"
        0).2)).1.current_recommendation.recommendation = "Sell" := by
    rw [hK]
    norm_num +decide [generateSimulatedAnalysis, generateMockRecommendation, streamBuySell,
      toFixed1]
  refine ⟨h1, h2, fun h => ?_⟩
  rw [h, h2] at h1
  exact absurd h1 (by decide)

/-- C5 as amended: the output is a deterministic function of the consumed
random draws only — for a fixed stream and cursor it does not depend on the
symbol at all (no field but the echoed `symbol` changes), so there is no
seeding from the symbol, and reproducibility holds only when the global
generator happens to replay the same draws. -/
theorem C5_amended_symbol_independence (s : RandStream) (sym1 sym2 tf : String) (k : Nat) :
    (generateSimulatedAnalysis s sym1 tf k).1.current_recommendation =
      (generateSimulatedAnalysis s sym2 tf k).1.current_recommendation ∧
    (generateSimulatedAnalysis s sym1 tf k).1.probabilities =
      (generateSimulatedAnalysis s sym2 tf k).1.probabilities ∧
    (generateSimulatedAnalysis s sym1 tf k).1.price_data =
      (generateSimulatedAnalysis s sym2 tf k).1.price_data ∧
    (generateSimulatedAnalysis s sym1 tf k).1.timeframe =
      (generateSimulatedAnalysis s sym2 tf k).1.timeframe ∧
    (generateSimulatedAnalysis s sym1 tf k).2 = (generateSimulatedAnalysis s sym2 tf k).2 :=
  ⟨rfl, rfl, rfl, rfl, rfl⟩

/-- C7 counterexample: in a concrete daily run every period holds 2
transits, the flattened total is 14, and 14 is not
`N × |bodies| = 7 × 10`: the generator draws 2-4 random transits per
period instead of one per (period, body) pair. -/
theorem C7_counterexample :
    (generateMockProbabilities streamZero "daily" 0).1.length = 7 ∧
    planets.length = 10 ∧
    ((generateMockProbabilities streamZero "daily" 0).1.getD 0 dProbEntry).transits.length = 2 ∧
    ((generateMockProbabilities streamZero "daily" 0).1.map
      (fun e => e.transits.length)).sum = 14 ∧
    (14 : Nat) ≠ 7 * 10 := by
  refine ⟨?_, by decide, ?_, ?_, by decide⟩ <;>
    norm_num +decide [generateMockProbabilities, probLoop, generateMockTransits,
      generateMockTransitsLoop, streamZero, toFixed1, dProbEntry, Int.toNat]

/-- C7 as amended: for every request and every period, the transit
generator emits between 2 and 4 transit events
(`Math.floor(Math.random()*3) + 2`) with independently random bodies, not
one event per (period, body) pair. -/
theorem C7_amended_transit_count (s : RandStream) (hs : ValidStream s)
    (tf : String) (k : Nat) :
    ∀ e ∈ (generateMockProbabilities s tf k).1,
      2 ≤ e.transits.length ∧ e.transits.length ≤ 4 := by
  intro e he
  obtain ⟨-, -, -, h4, h5⟩ :=
    goodEntry_bounds s hs e (generateMockProbabilities_good s tf k e he)
  exact ⟨h4, h5⟩

/-- C7 amended witness: the transit-count bound instantiated at the first
daily entry of a concrete run. -/
theorem C7_amended_transit_count_witness :
    2 ≤ ((generateMockProbabilities streamHalf "daily" 0).1.getD 0 dProbEntry).transits.length ∧
    ((generateMockProbabilities streamHalf "daily" 0).1.getD 0 dProbEntry).transits.length ≤ 4 := by
  have hmem :
      (generateMockProbabilities streamHalf "daily" 0).1.getD 0 dProbEntry ∈
      (generateMockProbabilities streamHalf "daily" 0).1 := by
    apply getD_zero_mem
    simp +decide [generateMockProbabilities, probLoop_length]
  exact C7_amended_transit_count streamHalf streamHalf_valid "daily" 0 _ hmem

/-- Under `streamZero` every draw is 0, so each probability period
consumes exactly 12 draws. -/
theorem probLoop_cursor_zero :
    ∀ m k, (probLoop streamZero m k).2 = k + 12 * m := by
  intro m
  induction m with
  | zero => intro k; simp [probLoop]
  | succ m ih =>
    intro k
    have ht : (generateMockTransits streamZero (k + 1)).2 = k + 12 := by
      simp [generateMockTransits, generateMockTransitsLoop_cursor, streamZero]
    simp [probLoop, ht, ih]
    ring

set_option maxRecDepth 8000 in
set_option maxHeartbeats 1000000 in
/-- C8 counterexample: in a concrete weekly run the first price point
carries `(0.4, 0.4)` — summing to 0.8, not 1 — while every period's
bearish probability is 0.6: price-point probabilities are fresh draws, not
copies of the governing period's pair. -/
theorem C8_counterexample :
    ((generateSimulatedAnalysis streamZero "AAPL" "weekly" 0).1.price_data.getD 0
      dPricePoint).bullish_prob = 2 / 5 ∧
    ((generateSimulatedAnalysis streamZero "AAPL" "weekly" 0).1.price_data.getD 0
      dPricePoint).bearish_prob = 2 / 5 ∧
    ((generateSimulatedAnalysis streamZero "AAPL" "weekly" 0).1.probabilities.map
      ProbEntry.bearish_prob) = [3 / 5, 3 / 5, 3 / 5, 3 / 5] ∧
    (2 : ℚ) / 5 + 2 / 5 ≠ 1 ∧
    ((2 : ℚ) / 5) ≠ 3 / 5 := by
  have hpd : (generateSimulatedAnalysis streamZero "AAPL" "weekly" 0).1.price_data =
      (generateMockPriceData streamZero "weekly" 49).1 := by
    have hcur : (generateMockProbabilities streamZero "weekly" 1).2 = 49 := by
      simp +decide [generateMockProbabilities, probLoop_cursor_zero]
    exact congrArg (fun j => (generateMockPriceData streamZero "weekly" j).1) hcur
  have hpp : (generateMockPriceData streamZero "weekly" 49).1.getD 0 dPricePoint =
      { timestamp := -21, price := 100 * (1 + (0 - 1 / 2) * (1 / 20)),
        bullish_prob := 2 / 5, bearish_prob := 2 / 5 } := by
    norm_num +decide [generateMockPriceData, priceOuter, streamZero]
  have hprob : ((generateSimulatedAnalysis streamZero "AAPL" "weekly" 0).1.probabilities.map
      ProbEntry.bearish_prob) = [3 / 5, 3 / 5, 3 / 5, 3 / 5] := by
    norm_num +decide [generateSimulatedAnalysis, generateMockRecommendation,
      generateMockProbabilities, probLoop, generateMockTransits, generateMockTransitsLoop,
      streamZero, toFixed1, Int.toNat]
  rw [hpd, hpp]
  exact ⟨rfl, rfl, hprob, by norm_num, by norm_num⟩

/-- C8 as amended: every price point's bullish and bearish probabilities
are fresh independent draws of the form `0.5 + (r − 0.5) × 0.2`, each lying
in `[0.4, 0.6)`; they are not copied from the governing period and need not
sum to 1. -/
theorem C8_amended_pricepoint_prob_range (s : RandStream) (hs : ValidStream s)
    (tf : String) (k : Nat) :
    ∀ p ∈ (generateMockPriceData s tf k).1,
      2 / 5 ≤ p.bullish_prob ∧ p.bullish_prob < 3 / 5 ∧
      2 / 5 ≤ p.bearish_prob ∧ p.bearish_prob < 3 / 5 := by
  intro p hp
  exact (generateMockPriceData_good s hs tf k p hp).2

/-- C8 amended witness: the range instantiated at the first daily price
point of a concrete run. -/
theorem C8_amended_pricepoint_prob_range_witness :
    2 / 5 ≤ ((generateMockPriceData streamHalf "daily" 0).1.getD 0 dPricePoint).bullish_prob ∧
    ((generateMockPriceData streamHalf "daily" 0).1.getD 0 dPricePoint).bearish_prob < 3 / 5 := by
  have hmem :
      (generateMockPriceData streamHalf "daily" 0).1.getD 0 dPricePoint ∈
      (generateMockPriceData streamHalf "daily" 0).1 := by
    apply getD_zero_mem
    simp +decide [generateMockPriceData, priceOuter_length_other]
  have h := C8_amended_pricepoint_prob_range streamHalf streamHalf_valid "daily" 0 _ hmem
  exact ⟨h.1, h.2.2.2⟩

/-- C9 counterexample: the analysis object literal has exactly the five
fields `symbol`, `timeframe`, `current_recommendation`, `probabilities`,
`price_data` — there is no top-level `transits` field. -/
theorem C9_counterexample :
    "transits" ∉ mockAnalysisFields ∧
    "probabilities" ∈ mockAnalysisFields ∧
    mockAnalysisFields.length = 5 := by decide

/-- C9 as amended: every analysis result echoes its symbol and timeframe
and carries `current_recommendation`, `probabilities` and `price_data`;
transit events appear only nested inside each probability entry (always at
least two per entry), and there is no top-level flattened `transits`
list. -/
theorem C9_amended_result_fields (s : RandStream) (hs : ValidStream s)
    (sym tf : String) (k : Nat) :
    (generateSimulatedAnalysis s sym tf k).1.symbol = sym ∧
    (generateSimulatedAnalysis s sym tf k).1.timeframe = tf ∧
    (∀ e ∈ (generateSimulatedAnalysis s sym tf k).1.probabilities, e.transits ≠ []) ∧
    "symbol" ∈ mockAnalysisFields ∧
    "timeframe" ∈ mockAnalysisFields ∧
    "current_recommendation" ∈ mockAnalysisFields ∧
    "probabilities" ∈ mockAnalysisFields ∧
    "price_data" ∈ mockAnalysisFields ∧
    "transits" ∉ mockAnalysisFields := by
  refine ⟨rfl, rfl, ?_, by decide, by decide, by decide, by decide, by decide, by decide⟩
  intro e he
  obtain ⟨-, -, -, h4, -⟩ := goodEntry_bounds s hs e
    (generateMockProbabilities_good s tf _ e (by simpa [generateSimulatedAnalysis] using he))
  exact List.ne_nil_of_length_pos (by omega)

/-- C9 amended witness: the field facts instantiated on a concrete run. -/
theorem C9_amended_result_fields_witness :
    (generateSimulatedAnalysis streamHalf "AAPL" "daily" 0).1.symbol = "AAPL" ∧
    "transits" ∉ mockAnalysisFields :=
  ⟨(C9_amended_result_fields streamHalf streamHalf_valid "AAPL" "daily" 0).1,
   (C9_amended_result_fields streamHalf streamHalf_valid "AAPL" "daily"
     0).2.2.2.2.2.2.2.2⟩
